import Mathlib

/-!
Verification of the weather MCP server: shallow embedding of its cache
layer (`src/utils/cacheUtils.js`, also inlined in `src/index.js`), its
formatting helpers (`src/utils/weatherUtils.js` / `src/index.js`) and its
tool dispatch (`src/tools/weatherTools.js` / `src/index.js`), together
with proofs about caching, dispatch and formatting behaviour.

JavaScript numbers are modelled as exact rationals (`ℚ`), wall-clock
instants (`Date.now()` milliseconds) as integers (`ℤ`), and JavaScript
`undefined` as `Option.none`.  Number-to-string template interpolation
(`${n}`) and locale date rendering are kept as parameters of the
environment, since no proved property depends on their exact output.
-/

namespace WeatherServer

/-! ### JavaScript primitives -/

/-- Model of `Math.round`: round half toward positive infinity. -/
def jsRound (q : ℚ) : ℤ := ⌊q + 1/2⌋

/-- Model of the JavaScript remainder operator `%` on integers with a
positive right operand: the result carries the sign of the dividend. -/
def jsRem (a b : ℤ) : ℤ := if a < 0 then -((-a) % b) else a % b

/-- Model of JavaScript array indexing `l[i]` with an integer index:
out-of-range access (negative included) yields `undefined` (`none`). -/
def jsListIndex (l : List String) (i : ℤ) : Option String :=
  if 0 ≤ i then l.get? i.toNat else none

/-- Template-literal rendering of a possibly-`undefined` string value:
`undefined` interpolates as the text "undefined". -/
def jsStr : Option String → String
  | none => "undefined"
  | some s => s

/-- Model of `String.prototype.toLowerCase()`. -/
def jsToLower (s : String) : String := ⟨s.data.map Char.toLower⟩

/-- Left-pad a string with zeros to the given width. -/
def padLeftZeros (width : Nat) (s : String) : String :=
  String.mk (List.replicate (width - s.length) '0') ++ s

/-- Model of `Number.prototype.toFixed(4)` for a non-negative exact
rational: the nearest multiple of 1/10000 (ties toward the larger value,
per the ECMAScript algorithm), rendered with exactly 4 decimal places. -/
def toFixed4Abs (q : ℚ) : String :=
  let n : ℕ := (jsRound (q * 10000)).toNat
  toString (n / 10000) ++ "." ++ padLeftZeros 4 (toString (n % 10000))

/-- Model of `Number.prototype.toFixed(4)`: a negative receiver is
rendered as "-" followed by `toFixed4Abs` of its negation. -/
def toFixed4 (q : ℚ) : String :=
  if q < 0 then "-" ++ toFixed4Abs (-q) else toFixed4Abs q

/-! ### Cache layer — `src/utils/cacheUtils.js` (the same logic is
inlined in `src/index.js` lines 11-17 and in each city-based handler) -/

/-- A cache entry `{ timestamp, text }` as written by `setCacheEntry`. -/
structure CacheEntry where
  timestamp : ℤ
  text : String
deriving DecidableEq, Repr

/-- The two cache namespaces of `weatherCache`: `current` and `forecast`. -/
inductive CacheType
  | current
  | forecast
deriving DecidableEq, Repr

/-- A namespace's mapping from string keys to entries, modelling a plain
JavaScript object used as a dictionary (absent key = `undefined`). -/
def CacheMap : Type := String → Option CacheEntry

/-- JavaScript property assignment `obj[key] = v` on a dictionary. -/
def CacheMap.set (m : CacheMap) (key : String) (v : Option CacheEntry) : CacheMap :=
  fun x => if x = key then v else m x

/-- The `weatherCache` object: one mapping per namespace.  (`cacheTime`
is the constant `cacheTime` below.) -/
structure WeatherCache where
  current : CacheMap
  forecast : CacheMap

/-- `weatherCache.cacheTime`: 30 minutes in milliseconds. -/
def cacheTime : ℤ := 30 * 60 * 1000

/-- `weatherCache[type]` — select the namespace mapping. -/
def WeatherCache.lookup (c : WeatherCache) : CacheType → CacheMap
  | .current => c.current
  | .forecast => c.forecast

/-- `getCacheEntry(type, key)` from `src/utils/cacheUtils.js`: returns
the stored entry only when `now - entry.timestamp < cacheTime`; an
absent or expired entry yields `null`/`none`.  The read never mutates
the cache (the function's only state access is the lookup itself). -/
def getCacheEntry (c : WeatherCache) (type : CacheType) (key : String) (now : ℤ) :
    Option CacheEntry :=
  match c.lookup type key with
  | none => none
  | some e => if now - e.timestamp < cacheTime then some e else none

/-- `setCacheEntry(type, key, text)` from `src/utils/cacheUtils.js`:
unconditionally stores `{ timestamp: now, text }` under the key. -/
def setCacheEntry (c : WeatherCache) (type : CacheType) (key : String) (text : String)
    (now : ℤ) : WeatherCache :=
  match type with
  | .current => { c with current := c.current.set key (some ⟨now, text⟩) }
  | .forecast => { c with forecast := c.forecast.set key (some ⟨now, text⟩) }

/-- The cache at process start: both namespaces empty. -/
def emptyCache : WeatherCache := ⟨fun _ => none, fun _ => none⟩

/-! ### Upstream data shapes — `src/utils/weatherUtils.js` -/

/-- The location value produced by `getCoordinates`. -/
structure Location where
  latitude : ℚ
  longitude : ℚ
  name : String
  country : String
  admin1 : Option String
deriving DecidableEq, Repr

/-- The `data.current` snapshot returned by `getCurrentWeather`. -/
structure CurrentWeather where
  temperature_2m : ℚ
  relative_humidity_2m : ℚ
  apparent_temperature : ℚ
  is_day : ℚ
  precipitation : ℚ
  rain : ℚ
  weather_code : ℤ
  cloud_cover : ℚ
  wind_speed_10m : ℚ
  wind_direction_10m : ℚ
  wind_gusts_10m : ℚ
deriving DecidableEq, Repr

/-- The `data.daily` parallel arrays returned by `getForecast`; the
upstream API contract index-aligns all arrays with `time`. -/
structure ForecastDaily where
  time : List String
  weather_code : List ℤ
  temperature_2m_max : List ℚ
  temperature_2m_min : List ℚ
  precipitation_sum : List ℚ
  precipitation_hours : List ℚ
  wind_speed_10m_max : List ℚ
  wind_gusts_10m_max : List ℚ
  wind_direction_10m_dominant : List ℚ
deriving DecidableEq, Repr

/-! ### Formatting helpers — `src/utils/weatherUtils.js` and
`src/index.js` lines 68-109 (identical code in both files) -/

/-- The `weatherCodes` lookup table of `getWeatherDescription`. -/
def weatherCodes : List (ℤ × String) :=
  [(0, "Clear sky"), (1, "Mainly clear"), (2, "Partly cloudy"), (3, "Overcast"),
   (45, "Fog"), (48, "Depositing rime fog"),
   (51, "Light drizzle"), (53, "Moderate drizzle"), (55, "Dense drizzle"),
   (56, "Light freezing drizzle"), (57, "Dense freezing drizzle"),
   (61, "Slight rain"), (63, "Moderate rain"), (65, "Heavy rain"),
   (66, "Light freezing rain"), (67, "Heavy freezing rain"),
   (71, "Slight snow fall"), (73, "Moderate snow fall"), (75, "Heavy snow fall"),
   (77, "Snow grains"),
   (80, "Slight rain showers"), (81, "Moderate rain showers"), (82, "Violent rain showers"),
   (85, "Slight snow showers"), (86, "Heavy snow showers"),
   (95, "Thunderstorm"), (96, "Thunderstorm with slight hail"),
   (99, "Thunderstorm with heavy hail")]

/-- `getWeatherDescription(code)`: table lookup with an "Unknown" default. -/
def getWeatherDescription (code : ℤ) : String :=
  match weatherCodes.lookup code with
  | some s => s
  | none => "Unknown (code: " ++ toString code ++ ")"

/-- The 16 compass labels of `formatWindDirection`, clockwise from "N". -/
def directions : List String :=
  ["N", "NNE", "NE", "ENE", "E", "ESE", "SE", "SSE",
   "S", "SSW", "SW", "WSW", "W", "WNW", "NW", "NNW"]

/-- `formatWindDirection(degrees)`: `directions[Math.round(degrees / 22.5) % 16]`.
For a negative index (possible when `degrees` is sufficiently negative,
since `%` keeps the dividend's sign) the array access is `undefined`. -/
def formatWindDirection (degrees : ℚ) : Option String :=
  jsListIndex directions (jsRem (jsRound (degrees / 22.5)) 16)

/-- The conditional gust clause of the current-conditions report
(`src/index.js` line 223, `weatherUtils.js` `formatCurrentWeather`):
appended exactly when `wind_gusts_10m > wind_speed_10m * 1.5`. -/
def currentGustClause (numStr : ℚ → String) (speed gusts : ℚ) : String :=
  if gusts > speed * 1.5 then " with gusts up to " ++ numStr gusts ++ " km/h" else ""

/-- The conditional gust clause of a forecast day (`src/index.js`
line 300, `weatherUtils.js` `formatForecast`): appended exactly when
`wind_gusts_10m_max[i] > wind_speed_10m_max[i] * 1.3`. -/
def forecastGustClause (numStr : ℚ → String) (speedMax gustsMax : ℚ) : String :=
  if gustsMax > speedMax * 1.3 then " with gusts up to " ++ numStr gustsMax ++ " km/h" else ""

/-! ### Environment of upstream collaborators and rendering

The geocoding and weather fetches, number-to-string interpolation and
locale date rendering are oracles supplied here; all proved properties
hold for every environment.  `geocode` returns `none` exactly when the
geocoding API reports zero results, in which case `getCoordinates`
throws `City not found: <city>` (`src/index.js` lines 34-50). -/

/-- The upstream collaborators and the rendering primitives a handler
uses.  `numStr` models `${n}` number interpolation, `dateStr` models
`new Date().toLocaleString()` at a given instant, `dayNameStr` and
`dateShortStr` model the two `toLocaleDateString` calls on a forecast
day string. -/
structure Env where
  geocode : String → Option Location
  current : ℚ → ℚ → CurrentWeather
  forecastDaily : ℚ → ℚ → ℚ → ForecastDaily
  numStr : ℚ → String
  dateStr : ℤ → String
  dayNameStr : String → String
  dateShortStr : String → String

/-- The current-conditions report template (`src/index.js` lines
217-228; the same template appears at lines 150-161 and 351-362 and in
`weatherUtils.js` `formatCurrentWeather`), with the location label
supplied by the caller. -/
def currentWeatherReport (env : Env) (header : String) (w : CurrentWeather) (now : ℤ) :
    String :=
  "\n# Current Weather for " ++ header ++ "\n\n" ++
  "**Conditions:** " ++ getWeatherDescription w.weather_code ++ "\n" ++
  "**Temperature:** " ++ env.numStr w.temperature_2m ++ "°C (Feels like: " ++
    env.numStr w.apparent_temperature ++ "°C)\n" ++
  "**Humidity:** " ++ env.numStr w.relative_humidity_2m ++ "%\n" ++
  "**Wind:** " ++ env.numStr w.wind_speed_10m ++ " km/h " ++
    jsStr (formatWindDirection w.wind_direction_10m) ++
    currentGustClause env.numStr w.wind_speed_10m w.wind_gusts_10m ++ "\n" ++
  "**Cloud Cover:** " ++ env.numStr w.cloud_cover ++ "%\n" ++
  "**Precipitation:** " ++ env.numStr w.precipitation ++ " mm" ++
    (if w.rain > 0 then " (Rain: " ++ env.numStr w.rain ++ " mm)" else "") ++ "\n\n" ++
  "*Updated: " ++ env.dateStr now ++ "*\n      "

/-- One day's section of the forecast report (`src/index.js` lines
287-305 loop body).  The upstream contract index-aligns the parallel
arrays with `time`, so every access is in range; `getD` supplies the
type's default out of range. -/
def forecastDaySection (env : Env) (f : ForecastDaily) (i : ℕ) : String :=
  "## " ++ env.dayNameStr (f.time.getD i "") ++ ", " ++ env.dateShortStr (f.time.getD i "") ++
    "\n" ++
  "**Conditions:** " ++ getWeatherDescription (f.weather_code.getD i 0) ++ "\n" ++
  "**Temperature:** " ++ env.numStr (f.temperature_2m_min.getD i 0) ++ "°C to " ++
    env.numStr (f.temperature_2m_max.getD i 0) ++ "°C\n" ++
  "**Precipitation:** " ++ env.numStr (f.precipitation_sum.getD i 0) ++ " mm over " ++
    env.numStr (f.precipitation_hours.getD i 0) ++ " hours\n" ++
  "**Wind:** " ++ env.numStr (f.wind_speed_10m_max.getD i 0) ++ " km/h " ++
    jsStr (formatWindDirection (f.wind_direction_10m_dominant.getD i 0)) ++
    forecastGustClause env.numStr (f.wind_speed_10m_max.getD i 0)
      (f.wind_gusts_10m_max.getD i 0) ++
  "\n\n"

/-- The whole forecast report (`src/index.js` lines 285-307). -/
def formatForecastReport (env : Env) (f : ForecastDaily) (loc : Location) (days : ℚ)
    (now : ℤ) : String :=
  "# " ++ env.numStr days ++ "-Day Weather Forecast for " ++ loc.name ++ ", " ++
    loc.country ++ "\n\n" ++
  String.join ((List.range f.time.length).map (forecastDaySection env f)) ++
  "*Updated: " ++ env.dateStr now ++ "*"

/-! ### The modular formatter's location label — `weatherUtils.js`
`formatCurrentWeather` (part of the refactored tool set) -/

/-- The value passed as `location` into the modular
`formatCurrentWeather`: either a geocoded location (name and country
present) or the bare `{ latitude, longitude }` object built by
`handleGetWeatherByCoordinates` (name and country absent). -/
structure LocationInfo where
  latitude : ℚ
  longitude : ℚ
  name : Option String := none
  country : Option String := none
deriving DecidableEq, Repr

/-- A JavaScript runtime failure. -/
inductive JsError
  | typeError
deriving DecidableEq, Repr

/-- The location label of the modular `formatCurrentWeather`
(`weatherUtils.js` lines 110-126): the template head is the ternary
`location ? (name, country) : Coordinates(lat.toFixed(4), ...)`.
Any object is truthy, so a `{ latitude, longitude }` object takes the
first branch and its absent `name`/`country` render as "undefined";
when `location` is `undefined`/`null` the alternative dereferences
`location.latitude` and throws a TypeError, so the source's coordinate
label is unreachable. -/
def formatCurrentWeatherLabel : Option LocationInfo → Except JsError String
  | some loc => .ok (jsStr loc.name ++ ", " ++ jsStr loc.country)
  | none => .error .typeError

/-- The coordinate label of the monolithic `get_weather_by_coordinates`
tool (`src/index.js` line 352):
`Coordinates (${latitude.toFixed(4)}, ${longitude.toFixed(4)})`. -/
def coordinatesLabel (latitude longitude : ℚ) : String :=
  "Coordinates (" ++ toFixed4 latitude ++ ", " ++ toFixed4 longitude ++ ")"

/-- The label carried by the report of the modular
`handleGetWeatherByCoordinates` (`weatherTools.js` lines 147-156),
which passes `locationInfo = { latitude, longitude }` into
`formatCurrentWeather`. -/
def handleGetWeatherByCoordinatesLabel (latitude longitude : ℚ) : Except JsError String :=
  formatCurrentWeatherLabel (some { latitude := latitude, longitude := longitude })

/-! ### Tool dispatch — `src/index.js` tool registrations (the modular
`weatherTools.js` handlers follow the same cache/geocode/fetch/format
flow).  A tool invocation is modelled as a pure step from a cache state
to a cache state, an outcome, and the list of upstream calls made. -/

/-- An upstream network interaction a handler can perform. -/
inductive UpstreamCall
  | geocode (city : String)
  | currentWeather (latitude longitude : ℚ)
  | forecastWeather (latitude longitude days : ℚ)
deriving DecidableEq, Repr

/-- The protocol-level outcome of a tool invocation: a text reply
(success and handler-caught failure alike) or a parameter-validation
rejection issued by the zod schema before the handler runs. -/
inductive ToolReply
  | reply (text : String)
  | invalidParams
deriving DecidableEq, Repr

/-- The observable result of one tool invocation. -/
structure ToolResult where
  outcome : ToolReply
  cache : WeatherCache
  calls : List UpstreamCall

/-- The `get_weather` tool (`src/index.js` lines 186-254): consult the
`current` cache under the lower-cased city; on hit return the cached
text with no upstream call; on miss geocode, fetch, format, write the
cache; a `City not found` failure is caught and becomes the text
`Error retrieving weather: City not found: <city>`. -/
def getWeatherTool (env : Env) (cache : WeatherCache) (now : ℤ) (city : String) :
    ToolResult :=
  let cacheKey := jsToLower city
  match getCacheEntry cache .current cacheKey now with
  | some entry => ⟨.reply entry.text, cache, []⟩
  | none =>
    match env.geocode city with
    | none =>
      ⟨.reply ("Error retrieving weather: City not found: " ++ city), cache,
        [.geocode city]⟩
    | some location =>
      let weather := env.current location.latitude location.longitude
      let text :=
        currentWeatherReport env (location.name ++ ", " ++ location.country) weather now
      ⟨.reply text, setCacheEntry cache .current cacheKey text now,
        [.geocode city, .currentWeather location.latitude location.longitude]⟩

/-- The zod day-count constraint of `get_forecast`:
`z.number().min(1).max(14).optional()` (`src/index.js` line 261). -/
def getForecastDaysValid : Option ℚ → Bool
  | none => true
  | some d => decide (1 ≤ d) && decide (d ≤ 14)

/-- The `get_forecast` cache key: `` `${city.toLowerCase()}_${days}` ``
(`src/index.js` line 266). -/
def forecastCacheKey (env : Env) (city : String) (days : ℚ) : String :=
  jsToLower city ++ "_" ++ env.numStr days

/-- The `get_forecast` tool (`src/index.js` lines 256-333): the SDK
validates `days` against the zod schema before the handler runs; the
handler defaults `days` to 7, consults the `forecast` cache under the
city-and-day-count key, and otherwise geocodes, fetches, formats and
writes the cache. -/
def getForecastTool (env : Env) (cache : WeatherCache) (now : ℤ) (city : String)
    (days : Option ℚ) : ToolResult :=
  if getForecastDaysValid days then
    let d := days.getD 7
    let cacheKey := forecastCacheKey env city d
    match getCacheEntry cache .forecast cacheKey now with
    | some entry => ⟨.reply entry.text, cache, []⟩
    | none =>
      match env.geocode city with
      | none =>
        ⟨.reply ("Error retrieving forecast: City not found: " ++ city), cache,
          [.geocode city]⟩
      | some location =>
        let f := env.forecastDaily location.latitude location.longitude d
        let text := formatForecastReport env f location d now
        ⟨.reply text, setCacheEntry cache .forecast cacheKey text now,
          [.geocode city, .forecastWeather location.latitude location.longitude d]⟩
  else ⟨.invalidParams, cache, []⟩

/-- The zod coordinate constraints of `get_weather_by_coordinates`
(`src/index.js` lines 339-340). -/
def coordsInRange (latitude longitude : ℚ) : Bool :=
  decide (-90 ≤ latitude) && decide (latitude ≤ 90) &&
    decide (-180 ≤ longitude) && decide (longitude ≤ 180)

/-- The `get_weather_by_coordinates` tool (`src/index.js` lines
335-382): after schema validation the handler fetches the snapshot for
the given coordinates directly and formats it under the coordinate
label — no geocoding, no cache read, no cache write. -/
def getWeatherByCoordinatesTool (env : Env) (cache : WeatherCache) (now : ℤ)
    (latitude longitude : ℚ) : ToolResult :=
  if coordsInRange latitude longitude then
    let weather := env.current latitude longitude
    let text := currentWeatherReport env (coordinatesLabel latitude longitude) weather now
    ⟨.reply text, cache, [.currentWeather latitude longitude]⟩
  else ⟨.invalidParams, cache, []⟩

/-! ### Concrete fixtures used by the witness theorems -/

/-- A sample geocoded location. -/
def sampleLocation : Location :=
  { latitude := 51.5, longitude := -0.1, name := "London", country := "United Kingdom",
    admin1 := none }

/-- A sample current-conditions snapshot. -/
def sampleWeather : CurrentWeather :=
  { temperature_2m := 20, relative_humidity_2m := 50, apparent_temperature := 19,
    is_day := 1, precipitation := 0, rain := 0, weather_code := 0, cloud_cover := 10,
    wind_speed_10m := 10, wind_direction_10m := 90, wind_gusts_10m := 12 }

/-- A sample one-day forecast series. -/
def sampleForecast : ForecastDaily :=
  { time := ["2026-01-01"], weather_code := [0], temperature_2m_max := [5],
    temperature_2m_min := [1], precipitation_sum := [0], precipitation_hours := [0],
    wind_speed_10m_max := [10], wind_gusts_10m_max := [12],
    wind_direction_10m_dominant := [90] }

/-- A sample environment: geocoding knows only "London". -/
def sampleEnv : Env :=
  { geocode := fun c => if c = "London" then some sampleLocation else none
    current := fun _ _ => sampleWeather
    forecastDaily := fun _ _ _ => sampleForecast
    numStr := fun q => if q = 1 then "1" else "#"
    dateStr := fun _ => "#"
    dayNameStr := fun _ => "#"
    dateShortStr := fun _ => "#" }

/-! ### Helper lemmas -/

/-- Rounding a non-negative rational is non-negative. -/
theorem jsRound_nonneg (q : ℚ) (h : -1/2 ≤ q) : 0 ≤ jsRound q := by
  rw [jsRound]
  exact Int.le_floor.mpr (by push_cast; linarith)

/-- A rendered gust clause is never the empty string. -/
theorem gustClause_text_ne_empty (x : String) :
    " with gusts up to " ++ x ++ " km/h" ≠ "" := by
  intro h
  have hlen := congrArg String.length h
  rw [String.length_append, String.length_append] at hlen
  have h18 : (" with gusts up to ").length = 18 := rfl
  have h5 : (" km/h").length = 5 := rfl
  have h0 : ("" : String).length = 0 := rfl
  omega

/-- A valid read determines the raw lookup and the freshness bound. -/
theorem getCacheEntry_some_lookup {c : WeatherCache} {ns : CacheType} {key : String}
    {now : ℤ} {e : CacheEntry} (h : getCacheEntry c ns key now = some e) :
    c.lookup ns key = some e ∧ now - e.timestamp < cacheTime := by
  cases hl : c.lookup ns key with
  | none =>
    simp only [getCacheEntry, hl] at h
    exact Option.noConfusion h
  | some e2 =>
    simp only [getCacheEntry, hl] at h
    by_cases hc2 : now - e2.timestamp < cacheTime
    · rw [if_pos hc2] at h
      injection h with h'
      subst h'
      exact ⟨rfl, hc2⟩
    · rw [if_neg hc2] at h
      exact Option.noConfusion h

/-- A raw entry that is fresh at the read instant is returned by `get`. -/
theorem getCacheEntry_of_lookup {c : WeatherCache} {ns : CacheType} {key : String}
    {now : ℤ} {e : CacheEntry} (hl : c.lookup ns key = some e)
    (hfresh : now - e.timestamp < cacheTime) : getCacheEntry c ns key now = some e := by
  simp only [getCacheEntry, hl]
  rw [if_pos hfresh]

/-- A write is visible in the raw mapping of its own namespace and key. -/
theorem lookup_setCacheEntry_same (c : WeatherCache) (ns : CacheType) (key t : String)
    (now : ℤ) : (setCacheEntry c ns key t now).lookup ns key = some ⟨now, t⟩ := by
  cases ns <;> simp [setCacheEntry, WeatherCache.lookup, CacheMap.set]

/-- String concatenation distributes over the character data. -/
theorem string_data_append (x y : String) : (x ++ y).data = x.data ++ y.data := by
  cases x; cases y; rfl

/-- Strings with equal character data are equal. -/
theorem string_ext_data {x y : String} (h : x.data = y.data) : x = y := by
  cases x; cases y; exact congrArg String.mk h

/-! ### Claim theorems -/

/-- C1: for every namespace, key and text, `set` followed by `get` at a
time strictly less than 30 minutes after the write returns an entry
whose text equals the written text unchanged; at 30 minutes or more the
read returns absent — yet the entry itself is still present in the raw
mapping, since expiry is lazy and `get` deletes nothing (in this model
`getCacheEntry` is a pure function of the state). -/
theorem cache_roundtrip_lazy_expiry (c : WeatherCache) (ns : CacheType) (k t : String)
    (tw e : ℤ) :
    (e < cacheTime →
      (getCacheEntry (setCacheEntry c ns k t tw) ns k (tw + e)).map CacheEntry.text =
        some t) ∧
    (cacheTime ≤ e → getCacheEntry (setCacheEntry c ns k t tw) ns k (tw + e) = none) ∧
    (setCacheEntry c ns k t tw).lookup ns k = some ⟨tw, t⟩ := by
  have hl : (setCacheEntry c ns k t tw).lookup ns k = some ⟨tw, t⟩ := by
    cases ns <;> simp [setCacheEntry, WeatherCache.lookup, CacheMap.set]
  refine ⟨?_, ?_, hl⟩
  · intro he
    simp [getCacheEntry, hl, add_sub_cancel_left, if_pos he]
  · intro he
    simp only [getCacheEntry, hl, add_sub_cancel_left, if_neg (not_lt.mpr he)]

/-- C1 witness: a concrete write at instant 100 read back 5 ms later and
exactly 30 minutes later. -/
theorem cache_roundtrip_lazy_expiry_witness :
    (getCacheEntry (setCacheEntry emptyCache .current "london" "report" 100) .current
        "london" (100 + 5)).map CacheEntry.text = some "report" ∧
    getCacheEntry (setCacheEntry emptyCache .current "london" "report" 100) .current
        "london" (100 + 1800000) = none :=
  ⟨(cache_roundtrip_lazy_expiry emptyCache .current "london" "report" 100 5).1 (by decide),
   (cache_roundtrip_lazy_expiry emptyCache .current "london" "report" 100 1800000).2.1
     (by decide)⟩

/-- C7: a write in the `current` namespace leaves every read of the
`forecast` namespace unchanged, and symmetrically; indeed the other
namespace's whole mapping is untouched. -/
theorem cache_namespace_isolation (c : WeatherCache) (k k' t : String) (tw tr : ℤ) :
    getCacheEntry (setCacheEntry c .current k t tw) .forecast k' tr =
      getCacheEntry c .forecast k' tr ∧
    getCacheEntry (setCacheEntry c .forecast k t tw) .current k' tr =
      getCacheEntry c .current k' tr ∧
    (setCacheEntry c .current k t tw).forecast = c.forecast ∧
    (setCacheEntry c .forecast k t tw).current = c.current := by
  refine ⟨?_, ?_, rfl, rfl⟩ <;> rfl

/-- C6: the current-conditions gust clause is appended iff gusts
strictly exceed 1.5 times the sustained speed, the per-day forecast gust
clause iff max gusts strictly exceed 1.3 times the max speed; in
particular speed 10 with gusts 16 includes it and gusts 14 does not. -/
theorem gust_clause_thresholds (numStr : ℚ → String) (speed gusts : ℚ) :
    (currentGustClause numStr speed gusts ≠ "" ↔ speed * 1.5 < gusts) ∧
    (forecastGustClause numStr speed gusts ≠ "" ↔ speed * 1.3 < gusts) ∧
    currentGustClause numStr 10 16 ≠ "" ∧
    currentGustClause numStr 10 14 = "" := by
  refine ⟨⟨fun hne => ?_, fun hlt => ?_⟩, ⟨fun hne => ?_, fun hlt => ?_⟩, ?_, ?_⟩
  · by_contra hnot
    rw [currentGustClause, if_neg hnot] at hne
    exact hne rfl
  · rw [currentGustClause, if_pos hlt]
    exact gustClause_text_ne_empty _
  · by_contra hnot
    rw [forecastGustClause, if_neg hnot] at hne
    exact hne rfl
  · rw [forecastGustClause, if_pos hlt]
    exact gustClause_text_ne_empty _
  · rw [currentGustClause, if_pos (by norm_num)]
    exact gustClause_text_ne_empty _
  · rw [currentGustClause, if_neg (by norm_num)]

/-- C4 (code-bug exhibit): the monolithic tool labels a coordinate
report with the coordinates rendered to 4 decimal places, but the
modular `handleGetWeatherByCoordinates` passes a truthy bare
`{ latitude, longitude }` object into `formatCurrentWeather`, whose
ternary therefore renders the absent name and country as
"undefined, undefined" — its coordinate branch is dead code. -/
theorem coordinates_label_divergence :
    coordinatesLabel 10 20 = "Coordinates (10.0000, 20.0000)" ∧
    handleGetWeatherByCoordinatesLabel 10 20 = .ok "undefined, undefined" ∧
    handleGetWeatherByCoordinatesLabel 10 20 ≠ .ok (coordinatesLabel 10 20) := by
  have h1 : jsRound ((10 : ℚ) * 10000) = 100000 := by rw [jsRound]; norm_num
  have h2 : jsRound ((20 : ℚ) * 10000) = 200000 := by rw [jsRound]; norm_num
  have hf10 : toFixed4 (10 : ℚ) = "10.0000" := by
    rw [toFixed4, if_neg (by norm_num), toFixed4Abs, h1]; decide
  have hf20 : toFixed4 (20 : ℚ) = "20.0000" := by
    rw [toFixed4, if_neg (by norm_num), toFixed4Abs, h2]; decide
  have hc : coordinatesLabel 10 20 = "Coordinates (10.0000, 20.0000)" := by
    rw [coordinatesLabel, hf10, hf20]; decide
  have hb : handleGetWeatherByCoordinatesLabel 10 20 = .ok "undefined, undefined" := rfl
  refine ⟨hc, hb, ?_⟩
  rw [hb, hc]
  intro h
  exact absurd (Except.ok.inj h) (by decide)

/-- C5 counterexample: compass periodicity fails for a negative degrees
value, because the JavaScript remainder keeps the dividend's sign and
the resulting negative array index reads `undefined`: -30 degrees gives
no label, while -30 + 360 = 330 gives "NNW". -/
theorem compass_periodicity_counterexample :
    formatWindDirection (-30) ≠ formatWindDirection (-30 + 360) := by
  have h1 : jsRound ((-30 : ℚ) / 22.5) = -1 := by rw [jsRound]; norm_num
  have h2 : jsRound (((-30 : ℚ) + 360) / 22.5) = 15 := by rw [jsRound]; norm_num
  rw [formatWindDirection, formatWindDirection, h1, h2]
  decide

/-- C5 (amended): for every degrees value of at least -11.25 — exactly
the values whose rounded index round(degrees / 22.5) is non-negative —
the compass label is 360-periodic; compass 0 is "N"; and every result
is computed as round(degrees / 22.5) taken with JavaScript's
sign-preserving remainder by 16 indexing the fixed 16-label list
starting at "N" clockwise. -/
theorem compass_amended :
    (∀ d : ℚ, -11.25 ≤ d → formatWindDirection d = formatWindDirection (d + 360)) ∧
    formatWindDirection 0 = some "N" ∧
    (∀ d : ℚ, formatWindDirection d =
      jsListIndex directions (jsRem (jsRound (d / 22.5)) 16)) ∧
    (∀ d : ℚ, -11.25 ≤ d ↔ 0 ≤ jsRound (d / 22.5)) := by
  have hiff : ∀ d : ℚ, -11.25 ≤ d ↔ 0 ≤ jsRound (d / 22.5) := by
    intro d
    have h1 : (0 ≤ jsRound (d / 22.5)) ↔ ((0 : ℚ) ≤ d / 22.5 + 1/2) := by
      rw [jsRound]
      exact_mod_cast Int.le_floor
    rw [h1]
    constructor
    · intro hd
      have hq : -1/2 ≤ d / 22.5 := by
        rw [le_div_iff₀ (by norm_num : (0 : ℚ) < 22.5)]
        linarith
      linarith
    · intro h0
      have hq : -1/2 ≤ d / 22.5 := by linarith
      rw [le_div_iff₀ (by norm_num : (0 : ℚ) < 22.5)] at hq
      linarith
  refine ⟨fun d hd => ?_, ?_, fun d => rfl, hiff⟩
  · have hr : 0 ≤ jsRound (d / 22.5) := (hiff d).mp hd
    have hround : jsRound ((d + 360) / 22.5) = jsRound (d / 22.5) + 16 := by
      rw [jsRound, jsRound]
      have key : (d + 360) / (22.5 : ℚ) = d / 22.5 + 16 := by rw [add_div]; norm_num
      rw [key, add_right_comm, show ((16 : ℚ)) = ((16 : ℤ) : ℚ) by norm_num,
        Int.floor_add_int]
    have hrem : jsRem (jsRound (d / 22.5) + 16) 16 = jsRem (jsRound (d / 22.5)) 16 := by
      rw [jsRem, jsRem, if_neg (by omega), if_neg (by omega)]
      omega
    rw [formatWindDirection, formatWindDirection, hround, hrem]
  · have h0 : jsRound ((0 : ℚ) / 22.5) = 0 := by rw [jsRound]; norm_num
    rw [formatWindDirection, h0]
    decide

/-- C5 witness: the amended periodicity instantiated at 90 degrees and
at the boundary value -11.25 itself, together with compass 0 = "N". -/
theorem compass_amended_witness :
    formatWindDirection 90 = formatWindDirection (90 + 360) ∧
    formatWindDirection (-11.25) = formatWindDirection (-11.25 + 360) ∧
    formatWindDirection 0 = some "N" :=
  ⟨compass_amended.1 90 (by norm_num), compass_amended.1 (-11.25) (by norm_num),
    compass_amended.2.1⟩

/-- C10: for every non-negative degrees value the computed index
round(degrees / 22.5) remainder 16 lies within [0, 15], so
`formatWindDirection` returns one of the 16 defined compass labels —
the out-of-bounds branch is unreachable under this precondition. -/
theorem formatWindDirection_nonneg_total (d : ℚ) (hd : 0 ≤ d) :
    0 ≤ jsRem (jsRound (d / 22.5)) 16 ∧ jsRem (jsRound (d / 22.5)) 16 < 16 ∧
    ∃ s, formatWindDirection d = some s ∧ s ∈ directions := by
  have hr : 0 ≤ jsRound (d / 22.5) :=
    jsRound_nonneg _ (le_trans (by norm_num) (div_nonneg hd (by norm_num)))
  have hnn : 0 ≤ jsRem (jsRound (d / 22.5)) 16 := by
    rw [jsRem, if_neg (by omega)]
    exact Int.emod_nonneg _ (by norm_num)
  have hlt : jsRem (jsRound (d / 22.5)) 16 < 16 := by
    rw [jsRem, if_neg (by omega)]
    exact Int.emod_lt_of_pos _ (by norm_num)
  refine ⟨hnn, hlt, ?_⟩
  rw [formatWindDirection, jsListIndex, if_pos hnn]
  have hlen16 : directions.length = 16 := rfl
  have hlen : (jsRem (jsRound (d / 22.5)) 16).toNat < directions.length := by
    rw [hlen16]; omega
  rw [List.get?_eq_get hlen]
  exact ⟨_, rfl, List.get_mem _ _ _⟩

/-- C2: if geocoding can resolve the city and the `current`-namespace
entry present after a first `get_weather` call is still within the
30-minute window at the second call's instant, then the second call
returns byte-identical text (the cached text verbatim), makes no
upstream call at all, and leaves the cache untouched. -/
theorem getWeather_cache_idempotent (env : Env) (c : WeatherCache) (t1 t2 : ℤ)
    (city : String)
    (hsucc : env.geocode city ≠ none)
    (hfresh : ((getWeatherTool env c t1 city).cache.lookup .current
      (jsToLower city)).all (fun e => decide (t2 - e.timestamp < cacheTime)) = true) :
    (getWeatherTool env (getWeatherTool env c t1 city).cache t2 city).outcome =
      (getWeatherTool env c t1 city).outcome ∧
    (getWeatherTool env (getWeatherTool env c t1 city).cache t2 city).cache =
      (getWeatherTool env c t1 city).cache ∧
    (getWeatherTool env (getWeatherTool env c t1 city).cache t2 city).calls = [] := by
  cases h1 : getCacheEntry c .current (jsToLower city) t1 with
  | some entry =>
    have hr1 : getWeatherTool env c t1 city = ⟨.reply entry.text, c, []⟩ := by
      simp only [getWeatherTool, h1]
    obtain ⟨hlook, -⟩ := getCacheEntry_some_lookup h1
    rw [hr1] at hfresh ⊢
    rw [show (⟨.reply entry.text, c, []⟩ : ToolResult).cache = c from rfl, hlook] at hfresh
    have hf : t2 - entry.timestamp < cacheTime := of_decide_eq_true hfresh
    have h2 : getCacheEntry c .current (jsToLower city) t2 = some entry :=
      getCacheEntry_of_lookup hlook hf
    simp only [getWeatherTool, h2]
    refine ⟨?_, ?_, ?_⟩ <;> trivial
  | none =>
    cases hg : env.geocode city with
    | none => exact absurd hg hsucc
    | some loc =>
      have hr1 : getWeatherTool env c t1 city =
          ⟨.reply (currentWeatherReport env (loc.name ++ ", " ++ loc.country)
              (env.current loc.latitude loc.longitude) t1),
            setCacheEntry c .current (jsToLower city)
              (currentWeatherReport env (loc.name ++ ", " ++ loc.country)
                (env.current loc.latitude loc.longitude) t1) t1,
            [.geocode city, .currentWeather loc.latitude loc.longitude]⟩ := by
        simp only [getWeatherTool, h1, hg]
      rw [hr1] at hfresh ⊢
      rw [show (⟨.reply (currentWeatherReport env (loc.name ++ ", " ++ loc.country)
              (env.current loc.latitude loc.longitude) t1),
            setCacheEntry c .current (jsToLower city)
              (currentWeatherReport env (loc.name ++ ", " ++ loc.country)
                (env.current loc.latitude loc.longitude) t1) t1,
            [.geocode city, .currentWeather loc.latitude loc.longitude]⟩ :
          ToolResult).cache =
          setCacheEntry c .current (jsToLower city)
            (currentWeatherReport env (loc.name ++ ", " ++ loc.country)
              (env.current loc.latitude loc.longitude) t1) t1 from rfl] at hfresh
      rw [lookup_setCacheEntry_same] at hfresh
      have hf : t2 - (⟨t1, currentWeatherReport env (loc.name ++ ", " ++ loc.country)
          (env.current loc.latitude loc.longitude) t1⟩ : CacheEntry).timestamp <
          cacheTime := of_decide_eq_true hfresh
      have h2 : getCacheEntry
          (setCacheEntry c .current (jsToLower city)
            (currentWeatherReport env (loc.name ++ ", " ++ loc.country)
              (env.current loc.latitude loc.longitude) t1) t1) .current
          (jsToLower city) t2 =
          some ⟨t1, currentWeatherReport env (loc.name ++ ", " ++ loc.country)
            (env.current loc.latitude loc.longitude) t1⟩ :=
        getCacheEntry_of_lookup (lookup_setCacheEntry_same c .current (jsToLower city) _ t1)
          hf
      simp only [getWeatherTool, h2]
      refine ⟨?_, ?_, ?_⟩ <;> trivial

/-- C2 witness: a cold-cache call at instant 0 followed by a call one
minute later, at a city the sample environment can geocode. -/
theorem getWeather_cache_idempotent_witness :
    (getWeatherTool sampleEnv (getWeatherTool sampleEnv emptyCache 0 "London").cache
        60000 "London").outcome = (getWeatherTool sampleEnv emptyCache 0 "London").outcome ∧
    (getWeatherTool sampleEnv (getWeatherTool sampleEnv emptyCache 0 "London").cache
        60000 "London").cache = (getWeatherTool sampleEnv emptyCache 0 "London").cache ∧
    (getWeatherTool sampleEnv (getWeatherTool sampleEnv emptyCache 0 "London").cache
        60000 "London").calls = [] :=
  getWeather_cache_idempotent sampleEnv emptyCache 0 60000 "London" (by decide) (by decide)

/-- C3: when the cache has no valid entry for the city and geocoding
returns zero results, the `get_weather` tool still replies with text
(never a protocol-level fault): the text starts with
"Error retrieving weather:" and contains the queried city name, and the
cache is left unchanged. -/
theorem getWeather_not_found (env : Env) (c : WeatherCache) (now : ℤ) (city : String)
    (hmiss : getCacheEntry c .current (jsToLower city) now = none)
    (hgeo : env.geocode city = none) :
    (∃ rest, (getWeatherTool env c now city).outcome =
      .reply ("Error retrieving weather:" ++ rest)) ∧
    (∃ pre, (getWeatherTool env c now city).outcome = .reply (pre ++ city)) ∧
    (getWeatherTool env c now city).cache = c := by
  have hrun : getWeatherTool env c now city =
      ⟨.reply ("Error retrieving weather: City not found: " ++ city), c,
        [.geocode city]⟩ := by
    simp only [getWeatherTool, hmiss, hgeo]
  refine ⟨⟨" City not found: " ++ city, ?_⟩,
    ⟨"Error retrieving weather: City not found: ", ?_⟩, by rw [hrun]⟩
  · rw [hrun]
    refine congrArg ToolReply.reply (string_ext_data ?_)
    rw [string_data_append, string_data_append, string_data_append, ← List.append_assoc]
    rfl
  · rw [hrun]

/-- C3 witness: the sample environment geocodes "Nowhereland" to zero
results; the tool replies with the prefixed error text. -/
theorem getWeather_not_found_witness :
    (∃ rest, (getWeatherTool sampleEnv emptyCache 0 "Nowhereland").outcome =
      .reply ("Error retrieving weather:" ++ rest)) ∧
    (∃ pre, (getWeatherTool sampleEnv emptyCache 0 "Nowhereland").outcome =
      .reply (pre ++ "Nowhereland")) ∧
    (getWeatherTool sampleEnv emptyCache 0 "Nowhereland").cache = emptyCache :=
  getWeather_not_found sampleEnv emptyCache 0 "Nowhereland" rfl (by decide)

/-- C8: for every in-range latitude and longitude, the coordinate tool
leaves the cache exactly as it was, performs exactly one live weather
fetch and no geocoding, and its reply does not depend on the cache
state at all (so no cache read can influence it). -/
theorem byCoordinates_bypasses_cache (env : Env) (c : WeatherCache) (now : ℤ)
    (latitude longitude : ℚ)
    (hlat : -90 ≤ latitude ∧ latitude ≤ 90)
    (hlon : -180 ≤ longitude ∧ longitude ≤ 180) :
    (getWeatherByCoordinatesTool env c now latitude longitude).cache = c ∧
    (getWeatherByCoordinatesTool env c now latitude longitude).calls =
      [.currentWeather latitude longitude] ∧
    (∀ c' : WeatherCache,
      (getWeatherByCoordinatesTool env c' now latitude longitude).outcome =
        (getWeatherByCoordinatesTool env c now latitude longitude).outcome) ∧
    (∀ city, UpstreamCall.geocode city ∉
      (getWeatherByCoordinatesTool env c now latitude longitude).calls) := by
  have hv : coordsInRange latitude longitude = true := by
    rw [coordsInRange]
    simp only [Bool.and_eq_true, decide_eq_true_eq]
    exact ⟨⟨⟨hlat.1, hlat.2⟩, hlon.1⟩, hlon.2⟩
  have hrun : ∀ c0 : WeatherCache,
      getWeatherByCoordinatesTool env c0 now latitude longitude =
      ⟨.reply (currentWeatherReport env (coordinatesLabel latitude longitude)
          (env.current latitude longitude) now), c0,
        [.currentWeather latitude longitude]⟩ := by
    intro c0
    simp [getWeatherByCoordinatesTool, hv]
  refine ⟨by rw [hrun], by rw [hrun], fun c' => by rw [hrun, hrun], fun city => ?_⟩
  rw [hrun]
  simp

/-- C8 witness: the frame property instantiated at coordinates
(10, 20) over the empty cache. -/
theorem byCoordinates_bypasses_cache_witness :
    (getWeatherByCoordinatesTool sampleEnv emptyCache 0 10 20).cache = emptyCache ∧
    (getWeatherByCoordinatesTool sampleEnv emptyCache 0 10 20).calls =
      [.currentWeather 10 20] ∧
    (∀ c' : WeatherCache, (getWeatherByCoordinatesTool sampleEnv c' 0 10 20).outcome =
      (getWeatherByCoordinatesTool sampleEnv emptyCache 0 10 20).outcome) ∧
    (∀ city, UpstreamCall.geocode city ∉
      (getWeatherByCoordinatesTool sampleEnv emptyCache 0 10 20).calls) :=
  byCoordinates_bypasses_cache sampleEnv emptyCache 0 10 20 (by norm_num) (by norm_num)

/-- C9: day counts 1 and 14 pass `get_forecast`'s validation (the tool
replies), 0 and 15 are rejected before any upstream call or cache
change, an omitted day count behaves exactly as the default 7, and two
day counts whose renderings differ give distinct cache keys under the
lower-cased-city-underscore-days key scheme. -/
theorem forecast_days_boundary (env : Env) (c : WeatherCache) (now : ℤ) (city : String) :
    (getForecastTool env c now city (some 1)).outcome ≠ .invalidParams ∧
    (getForecastTool env c now city (some 14)).outcome ≠ .invalidParams ∧
    (getForecastTool env c now city (some 0)).outcome = .invalidParams ∧
    (getForecastTool env c now city (some 0)).cache = c ∧
    (getForecastTool env c now city (some 0)).calls = [] ∧
    (getForecastTool env c now city (some 15)).outcome = .invalidParams ∧
    (getForecastTool env c now city (some 15)).cache = c ∧
    (getForecastTool env c now city (some 15)).calls = [] ∧
    getForecastTool env c now city none = getForecastTool env c now city (some 7) ∧
    (∀ d d' : ℚ, env.numStr d ≠ env.numStr d' →
      forecastCacheKey env city d ≠ forecastCacheKey env city d') := by
  have hvalid : ∀ d : ℚ, getForecastDaysValid (some d) = true →
      (getForecastTool env c now city (some d)).outcome ≠ .invalidParams := by
    intro d hvd
    simp only [getForecastTool, hvd, if_true, Option.getD]
    cases hget : getCacheEntry c .forecast (forecastCacheKey env city d) now with
    | some e => simp [hget]
    | none =>
      cases hg : env.geocode city with
      | none => simp [hget, hg]
      | some loc => simp [hget, hg]
  have hinvalid : ∀ d : ℚ, getForecastDaysValid (some d) = false →
      getForecastTool env c now city (some d) = ⟨.invalidParams, c, []⟩ := by
    intro d hvd
    simp only [getForecastTool, hvd]
    rfl
  have h0 := hinvalid 0 (by decide)
  have h15 := hinvalid 15 (by decide)
  refine ⟨hvalid 1 (by decide), hvalid 14 (by decide),
    by rw [h0], by rw [h0], by rw [h0],
    by rw [h15], by rw [h15], by rw [h15], ?_, ?_⟩
  · simp only [getForecastTool, show getForecastDaysValid none = true from rfl,
      show getForecastDaysValid (some 7) = true by decide, if_true, Option.getD]
  · intro d d' hne heq
    apply hne
    rw [forecastCacheKey, forecastCacheKey] at heq
    have hdata := congrArg String.data heq
    rw [string_data_append, string_data_append] at hdata
    exact string_ext_data (List.append_cancel_left hdata)

/-- C9 witness: the boundary behaviour at concrete day counts over the
sample environment, whose rendering distinguishes 1 from 14. -/
theorem forecast_days_boundary_witness :
    (getForecastTool sampleEnv emptyCache 0 "London" (some 1)).outcome ≠ .invalidParams ∧
    (getForecastTool sampleEnv emptyCache 0 "London" (some 14)).outcome ≠
      .invalidParams ∧
    (getForecastTool sampleEnv emptyCache 0 "London" (some 0)).outcome = .invalidParams ∧
    (getForecastTool sampleEnv emptyCache 0 "London" (some 15)).outcome =
      .invalidParams ∧
    getForecastTool sampleEnv emptyCache 0 "London" none =
      getForecastTool sampleEnv emptyCache 0 "London" (some 7) ∧
    forecastCacheKey sampleEnv "London" 1 ≠ forecastCacheKey sampleEnv "London" 14 := by
  have h := forecast_days_boundary sampleEnv emptyCache 0 "London"
  exact ⟨h.1, h.2.1, h.2.2.1, h.2.2.2.2.2.1, h.2.2.2.2.2.2.2.2.1,
    h.2.2.2.2.2.2.2.2.2 1 14 (by decide)⟩

/-- C10 witness: the safety statement instantiated at 90 degrees. -/
theorem formatWindDirection_nonneg_total_witness :
    0 ≤ jsRem (jsRound ((90 : ℚ) / 22.5)) 16 ∧
    jsRem (jsRound ((90 : ℚ) / 22.5)) 16 < 16 ∧
    ∃ s, formatWindDirection 90 = some s ∧ s ∈ directions :=
  formatWindDirection_nonneg_total 90 (by norm_num)

end WeatherServer
